import Mathlib

/-!
Shallow embedding of the stream-webpage-container supervisor (src/cmd/main.go).

The Go program captures a webpage with Chrome and streams it with FFmpeg to an
RTMP endpoint.  The embedding models:

* `StreamState` with its mutating operations `setStreamRunning`, `stopStream`
  and the post-Wait cleanup of `startFFmpegStream`;
* `streamWebsite` / `startFFmpegStream` as functions producing a final state,
  an event trace and an optional Go error, parameterised by a `StreamEnv`
  record capturing the outcomes of the external effects (navigation success,
  ffmpeg spawn success, the wait error, context cancellation);
* the pure configuration loader `loadConfig` and the ffmpeg argument builder
  with its bitrate lookup table;
* the Twitch liveness check body and the cron-schedule selection of
  `setupStreamStatusChecker`.

Cancellation handles and process handles are modelled as `Option Nat`
identifiers: `none` is Go `nil`.  Go errors are modelled as `Option String`.
-/

namespace StreamWebpage

/-- Constants from src/cmd/main.go. -/
def DefaultResolution : String := "720p"

def DefaultRTMPURL : String := "rtmp://localhost:1935/live/stream"

def DefaultWebsiteURL : String := "https://google.com"

def DefaultFramerate : String := "30"

def DefaultCheckStreamCronString : String := "*/10 * * * *"

/-- Model of Go `exec.Cmd`: only the `Process` field matters to the
supervisor (`stopStream` checks `cmd.Process != nil` before killing). -/
structure GoCmd where
  process : Option Nat
deriving DecidableEq, Repr

/-- Model of the Go `StreamState` struct (the mutex is not modelled: every
operation below is the body of a Go method that holds the lock for its whole
duration, so operations are atomic state transformers). -/
structure StreamState where
  isRunning : Bool := false
  cancelFunc : Option Nat := none
  chromeCancel : Option Nat := none
  ffmpegCmd : Option GoCmd := none
deriving DecidableEq, Repr

/-- `globalStreamState = &StreamState{}`: the zero value at process start. -/
def StreamState.initial : StreamState := {}

/-- Observable events of a pipeline run, used to state ordering properties. -/
inductive Event where
  | killProcess (pid : Nat)
  | cancelChrome (id : Nat)
  | cancelAlloc (id : Nat)
  | cancelStream (id : Nat)
  | clearState
  | settleSleep
  | newStreamCtx (id : Nat)
  | newAllocCtx (id : Nat)
  | newChromeCtx (id : Nat)
  | navigate (url : String)
  | pageLoadSleep
  | spawnEncoder (pid : Nat)
  | registerPipeline
  | waitEncoder
deriving DecidableEq, Repr

/-- `setStreamRunning`: under the lock, sets `isRunning := true` and stores
the three handles; all previous fields of the receiver are overwritten. -/
def StreamState.setStreamRunning (_s : StreamState)
    (cancelFunc chromeCancel : Option Nat) (ffmpegCmd : Option GoCmd) :
    StreamState :=
  { isRunning := true, cancelFunc := cancelFunc,
    chromeCancel := chromeCancel, ffmpegCmd := ffmpegCmd }

/-- `stopStream`: under the lock, a no-op when not running; otherwise kills
the FFmpeg process (when both `ffmpegCmd` and its `Process` are non-nil),
cancels the Chrome context and the stream context (each when non-nil), and
clears all four fields.  Returns the new state and the emitted events. -/
def StreamState.stopStream (s : StreamState) : StreamState × List Event :=
  if s.isRunning = false then (s, [])
  else
    let killEvents : List Event :=
      match s.ffmpegCmd with
      | some cmd =>
        match cmd.process with
        | some pid => [Event.killProcess pid]
        | none => []
      | none => []
    let chromeEvents : List Event :=
      match s.chromeCancel with
      | some id => [Event.cancelChrome id]
      | none => []
    let streamEvents : List Event :=
      match s.cancelFunc with
      | some id => [Event.cancelStream id]
      | none => []
    ({ isRunning := false, cancelFunc := none, chromeCancel := none,
       ffmpegCmd := none },
     killEvents ++ chromeEvents ++ streamEvents ++ [Event.clearState])

/-- `isStreamRunning`: lock-protected read of `isRunning`. -/
def StreamState.isStreamRunning (s : StreamState) : Bool := s.isRunning

/-- The deferred cleanup in `startFFmpegStream` after `cmd.Wait()` returns:
clears all four fields under the lock. -/
def ffmpegStateCleanup (_s : StreamState) : StreamState :=
  { isRunning := false, cancelFunc := none, chromeCancel := none,
    ffmpegCmd := none }

/-- `RestartStream`: stops the current stream (the run loop restarts it) and
returns `nil`. -/
def RestartStream (s : StreamState) : (StreamState × List Event) × Option String :=
  (s.stopStream, none)

/-- `IsStreamRunning`: whether a stream is currently active. -/
def IsStreamRunning (s : StreamState) : Bool := s.isStreamRunning

/-- `StopCurrentStream`: stops any currently running stream. -/
def StopCurrentStream (s : StreamState) : StreamState × List Event :=
  s.stopStream

/-- The states reachable from the initial state by the mutations the program
performs on
`globalStreamState`: `setStreamRunning` (always invoked with the non-nil
handles `streamCancel`, `chromeCancel` and the started command), `stopStream`,
and the deferred cleanup in `startFFmpegStream`. -/
inductive Reachable : StreamState → Prop
  | init : Reachable StreamState.initial
  | setRunning (s : StreamState) (cf cc : Nat) (cmd : GoCmd) :
      Reachable s →
      Reachable (s.setStreamRunning (some cf) (some cc) (some cmd))
  | stop (s : StreamState) : Reachable s → Reachable (s.stopStream).1
  | cleanup (t : StreamState) : Reachable (ffmpegStateCleanup t)

/-- The state-coupling invariant of the specification: `isRunning` holds exactly when all
three handles are non-nil. -/
def stateCoupled (s : StreamState) : Prop :=
  s.isRunning = true ↔
    (s.cancelFunc.isSome = true ∧ s.chromeCancel.isSome = true ∧
     s.ffmpegCmd.isSome = true)

instance (s : StreamState) : Decidable (stateCoupled s) := by
  unfold stateCoupled; infer_instance

/-- Model of the Go `Config` struct. -/
structure Config where
  WebsiteURL : String
  RTMPURL : String
  Resolution : String
  Framerate : String
  Width : Int
  Height : Int
deriving DecidableEq, Repr

/-- `utils.GetEnvOrDefault`: the environment is a total map from names to
values, the empty string standing for an unset variable (as in Go, where
`os.Getenv` returns `""` for unset and the helper treats `""` as unset). -/
def getEnvOrDefault (env : String → String) (key defaultValue : String) :
    String :=
  if env key ≠ "" then env key else defaultValue

/-- ASCII lower-casing of one character, as Go `strings.ToLower` acts on the
ASCII configuration strings of this program. -/
def goToLowerChar (c : Char) : Char :=
  if 'A' ≤ c ∧ c ≤ 'Z' then Char.ofNat (c.toNat + 32) else c

/-- Model of Go `strings.ToLower` (ASCII). -/
def goToLower (s : String) : String :=
  String.mk (s.data.map goToLowerChar)

/-- `loadConfig`: reads the four variables, normalises the framerate to
`"30"` unless it is `"30"` or `"60"`, maps known resolutions (compared
case-insensitively) to fixed dimensions, and falls back to 720p/1280x720 for
anything else.  Always returns a nil error. -/
def loadConfig (env : String → String) : Config × Option String :=
  let base : Config :=
    { WebsiteURL := getEnvOrDefault env "WEBSITE_URL" DefaultWebsiteURL
      RTMPURL := getEnvOrDefault env "RTMP_URL" DefaultRTMPURL
      Resolution := getEnvOrDefault env "RESOLUTION" DefaultResolution
      Framerate := getEnvOrDefault env "FRAMERATE" DefaultFramerate
      Width := 0, Height := 0 }
  let cfg1 : Config :=
    if base.Framerate = "30" ∨ base.Framerate = "60" then base
    else { base with Framerate := "30" }
  let cfg2 : Config :=
    if goToLower cfg1.Resolution = "720p" then
      { cfg1 with Width := 1280, Height := 720 }
    else if goToLower cfg1.Resolution = "1080p" then
      { cfg1 with Width := 1920, Height := 1080 }
    else if goToLower cfg1.Resolution = "2k" then
      { cfg1 with Width := 2560, Height := 1440 }
    else
      { cfg1 with Resolution := "720p", Width := 1280, Height := 720 }
  (cfg2, none)

/-- Digit-string value for the model of Go `strconv.Atoi`: `none` when the
character list is empty or contains a non-digit. -/
def goDigitsVal (l : List Char) : Option Nat :=
  if l.isEmpty then none
  else if l.all Char.isDigit then
    some (l.foldl (fun acc c => acc * 10 + (c.toNat - 48)) 0)
  else none

/-- Model of Go `strconv.Atoi`: an optional sign followed by at least one
decimal digit; anything else is an error (`none`). -/
def goAtoi (s : String) : Option Int :=
  match s.data with
  | '+' :: rest => (goDigitsVal rest).map (fun n => (n : Int))
  | '-' :: rest => (goDigitsVal rest).map (fun n => -(n : Int))
  | l => (goDigitsVal l).map (fun n => (n : Int))

/-- Model of Go `strings.TrimSuffix`. -/
def goTrimSuffix (s suffix : String) : String :=
  if suffix.data.isSuffixOf s.data then
    String.mk (s.data.take (s.data.length - suffix.data.length))
  else s

/-- `extractNumberFromBitrate`: strips a trailing `"k"` and parses; falls
back to 3000 on a parse error. -/
def extractNumberFromBitrate (bitrate : String) : Int :=
  match goAtoi (goTrimSuffix bitrate "k") with
  | some n => n
  | none => 3000

/-- The framerate integer computed at the top of `startFFmpegStream`:
`strconv.Atoi` with a fallback of 30 on error. -/
def framerateIntFor (framerate : String) : Int :=
  match goAtoi framerate with
  | some n => n
  | none => 30

/-- The video bitrate switch of `startFFmpegStream`: resolution compared
case-insensitively, `framerateInt >= 60` selecting the 60fps column, and
720p/30fps settings for unknown resolutions. -/
def videoBitrateFor (resolution : String) (framerateInt : Int) : String :=
  if goToLower resolution = "720p" then
    if framerateInt ≥ 60 then "4000k" else "3000k"
  else if goToLower resolution = "1080p" then
    if framerateInt ≥ 60 then "6000k" else "4500k"
  else if goToLower resolution = "2k" then
    if framerateInt ≥ 60 then "8500k" else "6000k"
  else "3000k"

/-- The audio bitrate: always `"160k"`. -/
def audioBitrateValue : String := "160k"

/-- `bufferSize`: `fmt.Sprintf("%dk", extractNumberFromBitrate(videoBitrate) * 2)`. -/
def bufferSizeFor (resolution : String) (framerateInt : Int) : String :=
  toString (extractNumberFromBitrate (videoBitrateFor resolution framerateInt) * 2)
    ++ "k"

/-- The full FFmpeg argument list assembled by `startFFmpegStream`. -/
def ffmpegArgs (config : Config) (display : String) : List String :=
  let framerateInt := framerateIntFor config.Framerate
  let keyframeInterval := toString (framerateInt * 2)
  let videoBitrate := videoBitrateFor config.Resolution framerateInt
  let bufferSize := bufferSizeFor config.Resolution framerateInt
  ["-f", "x11grab",
   "-video_size", toString config.Width ++ "x" ++ toString config.Height,
   "-framerate", config.Framerate,
   "-i", display ++ "+0,0",
   "-f", "alsa",
   "-i", "default",
   "-vf", "crop=in_w:in_h:0:0",
   "-c:v", "libx264",
   "-preset", "veryfast",
   "-tune", "zerolatency",
   "-crf", "23",
   "-maxrate", videoBitrate,
   "-bufsize", bufferSize,
   "-pix_fmt", "yuv420p",
   "-g", keyframeInterval,
   "-c:a", "aac",
   "-b:a", audioBitrateValue,
   "-ar", "44100",
   "-f", "flv",
   config.RTMPURL]

/-- Outcomes of the external effects of one `streamWebsite` call. -/
structure StreamEnv where
  navigateOk : Bool
  displayEnv : String
  ffmpegStartOk : Bool
  waitErr : Option String
  ctxCancelledAfterWait : Bool
  streamCtxId : Nat
  allocCtxId : Nat
  chromeCtxId : Nat
  encoderPid : Nat
deriving DecidableEq, Repr

/-- `getDisplayInfo`: the `DISPLAY` variable, defaulting to `":0"`; never an
error. -/
def getDisplayInfo (displayEnv : String) : String × Option String :=
  (if displayEnv = "" then ":0" else displayEnv, none)

/-- `startFFmpegStream` from the registration point on: spawn the encoder
(or fail), register the pipeline via `setStreamRunning`, wait for exit, run
the deferred state cleanup, and return `nil` when the context was cancelled,
else the wait error. -/
def startFFmpegStream (env : StreamEnv) (_config : Config) (_display : String)
    (streamCancel chromeCancel : Nat) (s : StreamState) :
    StreamState × List Event × Option String :=
  if env.ffmpegStartOk = false then
    (s, [], some "failed to start ffmpeg")
  else
    let cmd : GoCmd := { process := some env.encoderPid }
    let s1 := s.setStreamRunning (some streamCancel) (some chromeCancel) (some cmd)
    let s2 := ffmpegStateCleanup s1
    let result : Option String :=
      if env.ctxCancelledAfterWait = true then none else env.waitErr
    (s2,
     [Event.spawnEncoder env.encoderPid, Event.registerPipeline,
      Event.waitEncoder, Event.clearState],
     result)

/-- The deferred cancels of `streamWebsite` (chromeCancel, allocCancel,
streamCancel, in LIFO order), run on every return path. -/
def deferCancelEvents (env : StreamEnv) : List Event :=
  [Event.cancelChrome env.chromeCtxId, Event.cancelAlloc env.allocCtxId,
   Event.cancelStream env.streamCtxId]

/-- `streamWebsite`: stop any running stream first (with a 2-second settle
sleep), create the stream, allocator and Chrome contexts, navigate (failure
returns an error), sleep for page load, read the display and hand off to
`startFFmpegStream`. -/
def streamWebsite (env : StreamEnv) (config : Config) (s : StreamState) :
    StreamState × List Event × Option String :=
  let stopped : StreamState × List Event :=
    if s.isStreamRunning = true then
      let r := s.stopStream
      (r.1, r.2 ++ [Event.settleSleep])
    else (s, [])
  let s1 := stopped.1
  let setupEvents : List Event :=
    [Event.newStreamCtx env.streamCtxId, Event.newAllocCtx env.allocCtxId,
     Event.newChromeCtx env.chromeCtxId, Event.navigate config.WebsiteURL]
  if env.navigateOk = false then
    (s1, stopped.2 ++ setupEvents ++ deferCancelEvents env,
     some "failed to navigate to website")
  else
    let di := getDisplayInfo env.displayEnv
    match di.2 with
    | some e =>
      (s1, stopped.2 ++ setupEvents ++ [Event.pageLoadSleep] ++ deferCancelEvents env,
       some ("failed to get display info: " ++ e))
    | none =>
      let r := startFFmpegStream env config di.1 env.streamCtxId env.chromeCtxId s1
      (r.1,
       stopped.2 ++ setupEvents ++ [Event.pageLoadSleep] ++ r.2.1
         ++ deferCancelEvents env,
       r.2.2)

/-- Number of active pipelines after one event: `clearState` tears the
current pipeline down, `registerPipeline` brings a new one up. -/
def activeStep (n : Nat) (e : Event) : Nat :=
  if e = Event.clearState then 0
  else if e = Event.registerPipeline then n + 1
  else n

/-- Number of active pipelines after a trace, starting from `init`. -/
def activeAfter (init : Nat) (events : List Event) : Nat :=
  events.foldl activeStep init

/-- Auxiliary fold computing the running maximum of the active count. -/
def maxActiveAux : Nat → Nat → List Event → Nat
  | _, mx, [] => mx
  | cur, mx, e :: es => maxActiveAux (activeStep cur e) (max mx (activeStep cur e)) es

/-- The largest number of simultaneously active pipelines over all prefixes
of a trace, starting from `init` active. -/
def maxActive (init : Nat) (events : List Event) : Nat :=
  maxActiveAux init init events

/-- Events that create (part of) a new pipeline: allocator or Chrome context
creation, navigation, encoder spawn, pipeline registration. -/
def isCreationEvent : Event → Bool
  | Event.newAllocCtx _ => true
  | Event.newChromeCtx _ => true
  | Event.navigate _ => true
  | Event.spawnEncoder _ => true
  | Event.registerPipeline => true
  | _ => false

/-- The body of the cron job installed by `setupStreamStatusChecker`: on a
query error, log and return (no restart); on success, restart exactly when
the list of live streams is empty.  Returns whether `RestartStream` was
invoked and the resulting stream state. -/
def streamStatusCheck (resp : Except String (List String)) (s : StreamState) :
    Bool × StreamState :=
  match resp with
  | Except.error _ => (false, s)
  | Except.ok streams =>
    if streams.length = 0 then (true, (RestartStream s).1.1)
    else (false, s)

/-- The cron-schedule selection of `setupStreamStatusChecker`: read
`STATUS_CRON_SCHEDULE` (default when unset), and fall back to the default
when `cron.ParseStandard` rejects it.  The external parser is abstracted as
the predicate `parseOk`. -/
def chooseCronSchedule (env : String → String) (parseOk : String → Bool) :
    String :=
  let cronString := getEnvOrDefault env "STATUS_CRON_SCHEDULE"
    DefaultCheckStreamCronString
  if parseOk cronString = false then DefaultCheckStreamCronString
  else cronString

/-! ## Helper lemmas -/

/-- A `stopStream` call while not running changes nothing and emits nothing. -/
theorem stop_of_not_running (s : StreamState) (h : s.isRunning = false) :
    s.stopStream = (s, []) := by
  simp [StreamState.stopStream, h]

/-- A `stopStream` call while running clears all four fields. -/
theorem stop_of_running (s : StreamState) (h : s.isRunning = true) :
    (s.stopStream).1 =
      { isRunning := false, cancelFunc := none, chromeCancel := none,
        ffmpegCmd := none } := by
  simp [StreamState.stopStream, h]

/-- The strong version of the coupling invariant: the four fields of a
reachable state are set together and cleared together. -/
def stateSync (s : StreamState) : Prop :=
  (s.isRunning = true ∧ s.cancelFunc.isSome = true ∧
   s.chromeCancel.isSome = true ∧ s.ffmpegCmd.isSome = true) ∨
  (s.isRunning = false ∧ s.cancelFunc = none ∧ s.chromeCancel = none ∧
   s.ffmpegCmd = none)

theorem stateSync_coupled (s : StreamState) (h : stateSync s) :
    stateCoupled s := by
  rcases h with ⟨h1, h2, h3, h4⟩ | ⟨h1, h2, h3, h4⟩ <;>
    simp [stateCoupled, h1, h2, h3, h4]

theorem reachable_sync (s : StreamState) (h : Reachable s) : stateSync s := by
  induction h with
  | init => exact Or.inr ⟨rfl, rfl, rfl, rfl⟩
  | setRunning t cf cc cmd _ _ =>
    exact Or.inl ⟨rfl, rfl, rfl, rfl⟩
  | stop t _ ih =>
    by_cases hr : t.isRunning = true
    · rw [stop_of_running t hr]
      exact Or.inr ⟨rfl, rfl, rfl, rfl⟩
    · rw [stop_of_not_running t (by simpa using hr)]
      exact ih
  | cleanup t => exact Or.inr ⟨rfl, rfl, rfl, rfl⟩

/-- `stopStream` emits no pipeline-creation events. -/
theorem stop_trace_no_creation (s : StreamState) :
    ∀ e ∈ (s.stopStream).2, isCreationEvent e = false := by
  by_cases hr : s.isRunning = true
  · rcases s with ⟨run, cf, cc, cmd⟩
    rcases cf with _ | cfid <;> rcases cc with _ | ccid <;>
      rcases cmd with _ | ⟨_ | pid⟩ <;>
      simp_all [StreamState.stopStream, isCreationEvent]
  · rw [stop_of_not_running s (by simpa using hr)]
    intro e he
    simp at he

/-- Folding the active-pipeline count over a `stopStream` trace from one
active pipeline ends with zero active pipelines. -/
theorem stop_trace_activeAfter (s : StreamState) (h : s.isRunning = true) :
    activeAfter 1 (s.stopStream).2 = 0 := by
  rcases s with ⟨run, cf, cc, cmd⟩
  rcases cf with _ | cfid <;> rcases cc with _ | ccid <;>
    rcases cmd with _ | ⟨_ | pid⟩ <;>
    simp_all [StreamState.stopStream, activeAfter, activeStep]

/-- The running maximum of the active-pipeline count stays at 1 across a
`stopStream` trace started from one active pipeline, and the count drops
to 0 for the rest of the fold. -/
theorem stop_trace_maxAux (s : StreamState) (h : s.isRunning = true)
    (rest : List Event) :
    maxActiveAux 1 1 ((s.stopStream).2 ++ rest) = maxActiveAux 0 1 rest := by
  rcases s with ⟨run, cf, cc, cmd⟩
  rcases cf with _ | cfid <;> rcases cc with _ | ccid <;>
    rcases cmd with _ | ⟨_ | pid⟩ <;>
    simp_all [StreamState.stopStream, maxActiveAux, activeStep]

/-! ## Claims -/

/-- Claim C2: the state-coupling invariant.  `setStreamRunning` invoked with
the non-nil handles the program passes establishes the invariant; `stopStream`
preserves it; the post-Wait cleanup of `startFFmpegStream` establishes it;
and every reachable state of `globalStreamState` satisfies it. -/
theorem streamState_coupling :
    (∀ (s : StreamState) (cf cc : Nat) (cmd : GoCmd),
       stateCoupled (s.setStreamRunning (some cf) (some cc) (some cmd))) ∧
    (∀ s : StreamState, stateCoupled s → stateCoupled (s.stopStream).1) ∧
    (∀ s : StreamState, stateCoupled (ffmpegStateCleanup s)) ∧
    (∀ s : StreamState, Reachable s → stateCoupled s) := by
  refine ⟨?_, ?_, ?_, ?_⟩
  · intro s cf cc cmd
    simp [StreamState.setStreamRunning, stateCoupled]
  · intro s hs
    by_cases hr : s.isRunning = true
    · rw [stop_of_running s hr]
      simp [stateCoupled]
    · rw [stop_of_not_running s (by simpa using hr)]
      exact hs
  · intro s
    simp [ffmpegStateCleanup, stateCoupled]
  · intro s hs
    exact stateSync_coupled s (reachable_sync s hs)

/-- Claim C2 witness: the invariant at concrete states. -/
theorem streamState_coupling_witness :
    stateCoupled StreamState.initial ∧
    stateCoupled (StreamState.stopStream
      { isRunning := true, cancelFunc := some 1, chromeCancel := some 2,
        ffmpegCmd := some { process := some 3 } }).1 :=
  ⟨streamState_coupling.2.2.2 StreamState.initial Reachable.init,
   streamState_coupling.2.1 _ (by decide)⟩

/-- Claim C3: `RestartStream` has exactly the effect of `StopCurrentStream`
on the stream state, returns a nil error, launches nothing, and is a no-op
keeping `IsStreamRunning` false when called while not running. -/
theorem restart_refines_stop (s : StreamState) :
    (RestartStream s).1 = StopCurrentStream s ∧
    (RestartStream s).2 = none ∧
    (∀ e ∈ (RestartStream s).1.2, isCreationEvent e = false) ∧
    (s.isRunning = false →
      (RestartStream s).1.1 = s ∧
      IsStreamRunning (RestartStream s).1.1 = false) := by
  refine ⟨rfl, rfl, ?_, ?_⟩
  · intro e he
    exact stop_trace_no_creation s e he
  · intro h
    have hstop : s.stopStream = (s, []) := stop_of_not_running s h
    constructor
    · show (s.stopStream).1 = s
      rw [hstop]
    · show (s.stopStream).1.isRunning = false
      rw [hstop]
      exact h

/-- Claim C3 witness: restart on the not-running initial state. -/
theorem restart_refines_stop_witness :
    IsStreamRunning (RestartStream StreamState.initial).1.1 = false :=
  ((restart_refines_stop StreamState.initial).2.2.2 rfl).2

/-- Claim C4: `IsStreamRunning` is false at process start; after `stopStream`
returns on any reachable state, `isRunning` is false and every handle field
is nil; and `stopStream` on a not-running state changes nothing and emits
nothing. -/
theorem stop_idempotent :
    IsStreamRunning StreamState.initial = false ∧
    (∀ s : StreamState, Reachable s →
       (s.stopStream).1.isRunning = false ∧
       (s.stopStream).1.cancelFunc = none ∧
       (s.stopStream).1.chromeCancel = none ∧
       (s.stopStream).1.ffmpegCmd = none) ∧
    (∀ s : StreamState, s.isRunning = false → s.stopStream = (s, [])) := by
  refine ⟨rfl, ?_, fun s h => stop_of_not_running s h⟩
  intro s hs
  by_cases hr : s.isRunning = true
  · rw [stop_of_running s hr]
    exact ⟨rfl, rfl, rfl, rfl⟩
  · have hr' : s.isRunning = false := by simpa using hr
    rw [stop_of_not_running s hr']
    rcases reachable_sync s hs with ⟨h1, _⟩ | ⟨h1, h2, h3, h4⟩
    · exact absurd h1 hr
    · exact ⟨h1, h2, h3, h4⟩

/-- Claim C4 witness: stopping after a running reachable state clears all
fields, and stopping the initial state is a no-op. -/
theorem stop_idempotent_witness :
    ((StreamState.initial.setStreamRunning (some 1) (some 2)
        (some { process := some 3 })).stopStream).1.isRunning = false ∧
    StreamState.initial.stopStream = (StreamState.initial, []) :=
  ⟨(stop_idempotent.2.1 _
      (Reachable.setRunning StreamState.initial 1 2 { process := some 3 }
        Reachable.init)).1,
   stop_idempotent.2.2 StreamState.initial rfl⟩

/-- The video bitrate switch only ever produces one of five literals. -/
theorem videoBitrateFor_mem (resolution : String) (framerateInt : Int) :
    videoBitrateFor resolution framerateInt = "3000k" ∨
    videoBitrateFor resolution framerateInt = "4000k" ∨
    videoBitrateFor resolution framerateInt = "4500k" ∨
    videoBitrateFor resolution framerateInt = "6000k" ∨
    videoBitrateFor resolution framerateInt = "8500k" := by
  unfold videoBitrateFor
  split_ifs <;> tauto

/-- Claim C5: for every configuration and display, the FFmpeg invocation
explicitly binds the x11grab video input and the ALSA audio input (both
`-i` entries with their formats head the argument list) and selects both a
video and an audio codec. -/
theorem ffmpegArgs_binds_video_and_audio (config : Config) (display : String) :
    (∃ rest, ffmpegArgs config display =
       ["-f", "x11grab",
        "-video_size", toString config.Width ++ "x" ++ toString config.Height,
        "-framerate", config.Framerate,
        "-i", display ++ "+0,0",
        "-f", "alsa",
        "-i", "default"] ++ rest) ∧
    "-c:v" ∈ ffmpegArgs config display ∧
    "-c:a" ∈ ffmpegArgs config display := by
  refine ⟨⟨?_, ?_⟩, ?_, ?_⟩
  · exact ["-vf", "crop=in_w:in_h:0:0",
      "-c:v", "libx264",
      "-preset", "veryfast",
      "-tune", "zerolatency",
      "-crf", "23",
      "-maxrate", videoBitrateFor config.Resolution (framerateIntFor config.Framerate),
      "-bufsize", bufferSizeFor config.Resolution (framerateIntFor config.Framerate),
      "-pix_fmt", "yuv420p",
      "-g", toString (framerateIntFor config.Framerate * 2),
      "-c:a", "aac",
      "-b:a", audioBitrateValue,
      "-ar", "44100",
      "-f", "flv",
      config.RTMPURL]
  · rfl
  · simp [ffmpegArgs]
  · simp [ffmpegArgs]

/-- Claim C6: the bitrate table of `startFFmpegStream` — 720p maps to
3000k/4000k for 30/60 fps, 1080p to 4500k/6000k, 2k to 6000k/8500k; the
audio bitrate is fixed at 160k; the buffer size always equals twice the
video bitrate; and 1080p at framerate string "60" yields video 6000k and
buffer 12000k. -/
theorem bitrate_table :
    videoBitrateFor "720p" 30 = "3000k" ∧
    videoBitrateFor "720p" 60 = "4000k" ∧
    videoBitrateFor "1080p" 30 = "4500k" ∧
    videoBitrateFor "1080p" 60 = "6000k" ∧
    videoBitrateFor "2k" 30 = "6000k" ∧
    videoBitrateFor "2k" 60 = "8500k" ∧
    audioBitrateValue = "160k" ∧
    (∀ (resolution : String) (framerateInt : Int),
       extractNumberFromBitrate (bufferSizeFor resolution framerateInt) =
         2 * extractNumberFromBitrate (videoBitrateFor resolution framerateInt)) ∧
    videoBitrateFor "1080p" (framerateIntFor "60") = "6000k" ∧
    bufferSizeFor "1080p" (framerateIntFor "60") = "12000k" := by
  refine ⟨by decide, by decide, by decide, by decide, by decide, by decide,
    rfl, ?_, by decide, by decide⟩
  intro resolution framerateInt
  have h := videoBitrateFor_mem resolution framerateInt
  unfold bufferSizeFor
  rcases h with h | h | h | h | h <;> rw [h] <;> decide

/-- Claim C7: `loadConfig` never returns an error; known resolutions map to
their fixed dimensions, unknown resolutions are normalized to 720p/1280x720,
and unknown framerates are normalized to "30". -/
theorem loadConfig_normalizes (env : String → String) :
    (loadConfig env).2 = none ∧
    (∀ r, r = getEnvOrDefault env "RESOLUTION" DefaultResolution →
       (goToLower r = "720p" →
         (loadConfig env).1.Width = 1280 ∧ (loadConfig env).1.Height = 720) ∧
       (goToLower r = "1080p" →
         (loadConfig env).1.Width = 1920 ∧ (loadConfig env).1.Height = 1080) ∧
       (goToLower r = "2k" →
         (loadConfig env).1.Width = 2560 ∧ (loadConfig env).1.Height = 1440) ∧
       (goToLower r ≠ "720p" → goToLower r ≠ "1080p" → goToLower r ≠ "2k" →
         (loadConfig env).1.Resolution = "720p" ∧
         (loadConfig env).1.Width = 1280 ∧ (loadConfig env).1.Height = 720)) ∧
    (∀ f, f = getEnvOrDefault env "FRAMERATE" DefaultFramerate →
       (f = "30" ∨ f = "60" → (loadConfig env).1.Framerate = f) ∧
       (f ≠ "30" → f ≠ "60" → (loadConfig env).1.Framerate = "30")) := by
  refine ⟨rfl, ?_, ?_⟩
  · intro r hr
    subst hr
    refine ⟨fun hh => ?_, fun hh => ?_, fun hh => ?_, fun hh1 hh2 hh3 => ?_⟩ <;>
      (simp only [loadConfig]; split_ifs <;> simp_all)
  · intro f hf
    subst hf
    refine ⟨fun hh => ?_, fun hh1 hh2 => ?_⟩ <;>
      (simp only [loadConfig]; split_ifs <;> simp_all)

/-- Claim C7 witness: an environment with unsupported resolution and
framerate values is normalized to the documented defaults. -/
theorem loadConfig_normalizes_witness :
    (loadConfig (fun _ => "bogus")).2 = none ∧
    (loadConfig (fun _ => "bogus")).1.Resolution = "720p" ∧
    (loadConfig (fun _ => "bogus")).1.Width = 1280 ∧
    (loadConfig (fun _ => "bogus")).1.Height = 720 ∧
    (loadConfig (fun _ => "bogus")).1.Framerate = "30" :=
  ⟨(loadConfig_normalizes (fun _ => "bogus")).1,
   ((loadConfig_normalizes (fun _ => "bogus")).2.1 "bogus" rfl).2.2.2
     (by decide) (by decide) (by decide) |>.1,
   ((loadConfig_normalizes (fun _ => "bogus")).2.1 "bogus" rfl).2.2.2
     (by decide) (by decide) (by decide) |>.2.1,
   ((loadConfig_normalizes (fun _ => "bogus")).2.1 "bogus" rfl).2.2.2
     (by decide) (by decide) (by decide) |>.2.2,
   ((loadConfig_normalizes (fun _ => "bogus")).2.2 "bogus" rfl).2
     (by decide) (by decide)⟩

/-- Claim C8 counterexample: when the encoder exits cleanly (`Wait` returns
nil) while the stream context is still live, `startFFmpegStream` returns nil
even though the exit was not caused by cancellation — refuting the claimed
"nil if and only if cancellation". -/
theorem startFFmpeg_nil_without_cancellation :
    (startFFmpegStream
        { navigateOk := true, displayEnv := "", ffmpegStartOk := true,
          waitErr := none, ctxCancelledAfterWait := false, streamCtxId := 0,
          allocCtxId := 0, chromeCtxId := 0, encoderPid := 1 }
        { WebsiteURL := "https://google.com",
          RTMPURL := "rtmp://localhost:1935/live/stream",
          Resolution := "720p", Framerate := "30", Width := 1280,
          Height := 720 }
        ":0" 0 0 StreamState.initial).2.2 = none ∧
    ({ navigateOk := true, displayEnv := "", ffmpegStartOk := true,
       waitErr := none, ctxCancelledAfterWait := false, streamCtxId := 0,
       allocCtxId := 0, chromeCtxId := 0,
       encoderPid := 1 : StreamEnv }).ctxCancelledAfterWait = false :=
  ⟨rfl, rfl⟩

/-- Claim C8 (amended): after the encoder is waited on, `startFFmpegStream`
returns nil whenever the stream context was cancelled, and otherwise returns
exactly the `Wait` result — in particular any process failure (non-nil
`Wait` error) with the context still live is returned as a non-nil error. -/
theorem startFFmpeg_wait_result (env : StreamEnv) (config : Config)
    (display : String) (sc cc : Nat) (s : StreamState)
    (h : env.ffmpegStartOk = true) :
    (env.ctxCancelledAfterWait = true →
      (startFFmpegStream env config display sc cc s).2.2 = none) ∧
    (env.ctxCancelledAfterWait = false →
      (startFFmpegStream env config display sc cc s).2.2 = env.waitErr) ∧
    (∀ e, env.ctxCancelledAfterWait = false → env.waitErr = some e →
      (startFFmpegStream env config display sc cc s).2.2 = some e) := by
  refine ⟨fun hc => ?_, fun hc => ?_, fun e hc he => ?_⟩
  · simp [startFFmpegStream, h, hc]
  · simp [startFFmpegStream, h, hc]
  · simp [startFFmpegStream, h, hc, he]

/-- Claim C8 witness: a nonzero encoder exit with the context live is
reported as the non-nil process failure. -/
theorem startFFmpeg_wait_result_witness :
    (startFFmpegStream
        { navigateOk := true, displayEnv := "", ffmpegStartOk := true,
          waitErr := some "exit status 1", ctxCancelledAfterWait := false,
          streamCtxId := 0, allocCtxId := 0, chromeCtxId := 0,
          encoderPid := 1 }
        { WebsiteURL := "https://google.com",
          RTMPURL := "rtmp://localhost:1935/live/stream",
          Resolution := "720p", Framerate := "30", Width := 1280,
          Height := 720 }
        ":0" 0 0 StreamState.initial).2.2 = some "exit status 1" :=
  (startFFmpeg_wait_result _ _ _ _ _ _ rfl).2.2 "exit status 1" rfl rfl

/-- Claim C9: the liveness check body invokes `RestartStream` exactly when
the Twitch query succeeds with an empty list of live streams; a query error
leaves the state untouched and triggers no restart. -/
theorem statusCheck_restart_iff (resp : Except String (List String))
    (s : StreamState) :
    ((streamStatusCheck resp s).1 = true ↔
       resp = Except.ok ([] : List String)) ∧
    (∀ e, resp = Except.error e → streamStatusCheck resp s = (false, s)) := by
  constructor
  · cases resp with
    | error e => simp [streamStatusCheck]
    | ok streams =>
      by_cases h : streams.length = 0
      · have : streams = [] := List.length_eq_zero.mp h
        subst this
        simp [streamStatusCheck]
      · simp [streamStatusCheck, h]
        intro hs
        subst hs
        simp at h
  · intro e he
    subst he
    rfl

/-- Claim C9 witness: a failing query triggers no restart, and a successful
not-live query does. -/
theorem statusCheck_restart_iff_witness :
    streamStatusCheck (Except.error "api down") StreamState.initial =
      (false, StreamState.initial) ∧
    (streamStatusCheck (Except.ok []) StreamState.initial).1 = true :=
  ⟨(statusCheck_restart_iff (Except.error "api down") StreamState.initial).2
     "api down" rfl,
   (statusCheck_restart_iff (Except.ok []) StreamState.initial).1.mpr rfl⟩

/-- Claim C10: the status checker uses the `STATUS_CRON_SCHEDULE` value
unchanged when it parses as a standard cron expression and falls back to the
default `"*/10 * * * *"` when it does not (the external `cron.ParseStandard`
is abstracted as the predicate `parseOk`). -/
theorem cronSchedule_fallback (env : String → String)
    (parseOk : String → Bool) (cs : String)
    (henv : env "STATUS_CRON_SCHEDULE" = cs) (hne : cs ≠ "") :
    (parseOk cs = false →
      chooseCronSchedule env parseOk = DefaultCheckStreamCronString) ∧
    (parseOk cs = true → chooseCronSchedule env parseOk = cs) := by
  have hget : getEnvOrDefault env "STATUS_CRON_SCHEDULE"
      DefaultCheckStreamCronString = cs := by
    simp [getEnvOrDefault, henv, hne]
  constructor
  · intro hp
    simp [chooseCronSchedule, hget, hp]
  · intro hp
    simp [chooseCronSchedule, hget, hp]

/-- Claim C10 witness: an unparsable schedule string falls back to the
default, a parsable one is kept. -/
theorem cronSchedule_fallback_witness :
    chooseCronSchedule (fun _ => "not a cron string") (fun _ => false) =
      DefaultCheckStreamCronString ∧
    chooseCronSchedule (fun _ => "*/5 * * * *") (fun _ => true) =
      "*/5 * * * *" :=
  ⟨(cronSchedule_fallback (fun _ => "not a cron string") (fun _ => false)
      "not a cron string" rfl (by decide)).1 rfl,
   (cronSchedule_fallback (fun _ => "*/5 * * * *") (fun _ => true)
      "*/5 * * * *" rfl (by decide)).2 rfl⟩

/-- The pipeline-creation part of a `streamWebsite` trace, after the initial
stop-and-settle prefix: context creations, navigation, and (on success) page
load, encoder spawn, registration, wait and cleanup, then the deferred
cancels. -/
def streamWebsiteTail (env : StreamEnv) (config : Config) : List Event :=
  [Event.newStreamCtx env.streamCtxId, Event.newAllocCtx env.allocCtxId,
   Event.newChromeCtx env.chromeCtxId, Event.navigate config.WebsiteURL] ++
  (if env.navigateOk = false then []
   else [Event.pageLoadSleep] ++
     (if env.ffmpegStartOk = false then []
      else [Event.spawnEncoder env.encoderPid, Event.registerPipeline,
            Event.waitEncoder, Event.clearState])) ++
  deferCancelEvents env

/-- The trace of `streamWebsite` on a running state is the `stopStream`
trace, then the settle sleep, then `streamWebsiteTail`. -/
theorem streamWebsite_trace_of_running (env : StreamEnv) (config : Config)
    (s : StreamState) (h : s.isStreamRunning = true) :
    (streamWebsite env config s).2.1 =
      (s.stopStream).2 ++ Event.settleSleep :: streamWebsiteTail env config := by
  by_cases hn : env.navigateOk = false
  · simp [streamWebsite, streamWebsiteTail, h, hn]
  · by_cases hf : env.ffmpegStartOk = false
    · simp [streamWebsite, streamWebsiteTail, startFFmpegStream,
        getDisplayInfo, h, hn, hf]
    · simp [streamWebsite, streamWebsiteTail, startFFmpegStream,
        getDisplayInfo, h, hn, hf]

/-- Claim C1: on any running state, `streamWebsite` first emits the whole
`stopStream` teardown followed by the settle sleep (a prefix containing no
pipeline-creation events), the number of simultaneously active pipelines
never exceeds one anywhere in the trace, and when navigation and the encoder
spawn succeed, exactly one pipeline is active at the moment the new one is
registered. -/
theorem streamWebsite_single_pipeline (env : StreamEnv) (config : Config)
    (s : StreamState) (h : s.isRunning = true) :
    (∃ rest, (streamWebsite env config s).2.1 =
       (s.stopStream).2 ++ Event.settleSleep :: rest) ∧
    (∀ e ∈ (s.stopStream).2 ++ [Event.settleSleep], isCreationEvent e = false) ∧
    maxActive 1 (streamWebsite env config s).2.1 ≤ 1 ∧
    (env.navigateOk = true → env.ffmpegStartOk = true →
      ∃ pre suf, (streamWebsite env config s).2.1 =
          pre ++ Event.registerPipeline :: suf ∧
        activeAfter 1 (pre ++ [Event.registerPipeline]) = 1) := by
  have hrun : s.isStreamRunning = true := h
  have htr := streamWebsite_trace_of_running env config s hrun
  refine ⟨⟨streamWebsiteTail env config, htr⟩, ?_, ?_, ?_⟩
  · intro e he
    rcases List.mem_append.mp he with h1 | h2
    · exact stop_trace_no_creation s e h1
    · simp at h2
      subst h2
      rfl
  · rw [htr, maxActive, stop_trace_maxAux s h]
    by_cases hn : env.navigateOk = false
    · simp [streamWebsiteTail, deferCancelEvents, maxActiveAux, activeStep, hn]
    · by_cases hf : env.ffmpegStartOk = false
      · simp [streamWebsiteTail, deferCancelEvents, maxActiveAux, activeStep,
          hn, hf]
      · simp [streamWebsiteTail, deferCancelEvents, maxActiveAux, activeStep,
          hn, hf]
  · intro hn hf
    refine ⟨(s.stopStream).2 ++ Event.settleSleep ::
        [Event.newStreamCtx env.streamCtxId, Event.newAllocCtx env.allocCtxId,
         Event.newChromeCtx env.chromeCtxId, Event.navigate config.WebsiteURL,
         Event.pageLoadSleep, Event.spawnEncoder env.encoderPid],
      [Event.waitEncoder, Event.clearState] ++ deferCancelEvents env, ?_, ?_⟩
    · rw [htr]
      simp [streamWebsiteTail, hn, hf]
    · have h0 : activeAfter 1 (s.stopStream).2 = 0 := stop_trace_activeAfter s h
      simp only [activeAfter, List.foldl_append] at h0 ⊢
      rw [h0]
      simp [activeStep]

/-- Claim C1 witness: a restart over a fully-populated running state never
has more than one pipeline active. -/
theorem streamWebsite_single_pipeline_witness :
    maxActive 1 (streamWebsite
        { navigateOk := true, displayEnv := "", ffmpegStartOk := true,
          waitErr := none, ctxCancelledAfterWait := true, streamCtxId := 4,
          allocCtxId := 5, chromeCtxId := 6, encoderPid := 7 }
        { WebsiteURL := "https://google.com",
          RTMPURL := "rtmp://localhost:1935/live/stream",
          Resolution := "720p", Framerate := "30", Width := 1280,
          Height := 720 }
        { isRunning := true, cancelFunc := some 1, chromeCancel := some 2,
          ffmpegCmd := some { process := some 3 } }).2.1 ≤ 1 :=
  (streamWebsite_single_pipeline _ _ _ rfl).2.2.1

end StreamWebpage
